import Mathlib

/-!
# Verification of the Poltava Air Monitor core

Shallow embedding of `custom_components/poltava_air_monitor` (api.py, const.py,
sensor.py, coordinator.py, config_flow.py) and proofs about it.

Modelling conventions:
* Python floats are modelled as exact rationals (`ℚ`); Python ints as `Int`/`Nat`.
* Python strings are modelled as `String`/`List Char`.
* Async I/O is modelled by passing the outcome of each network call as an
  explicit argument; raised exceptions are modelled as `Except`/sum values.
-/

set_option maxHeartbeats 1000000

namespace AirMonitor

/-! ## sensor.py: `clean_html`

`clean_html` does, in order:
1. `re.sub(r"<[^>]+>", "", text)` — remove HTML tags;
2. `html.unescape(text)` — decode HTML entities;
3. `re.sub(r"\s+", " ", text).strip()` — collapse whitespace runs and trim.
-/

/-- Whitespace as matched by Python's `\s` on `str` (and stripped by
`str.strip`), restricted to the ASCII whitespace characters plus NEL and
NBSP — the only whitespace characters that can occur in this development. -/
def isSpaceB (c : Char) : Bool :=
  c = ' ' || c = '\t' || c = '\n' || c = '\r' || c = '\u000B' || c = '\u000C' ||
    c = '\u0085' || c = '\u00A0'

/-- Auxiliary state machine for `re.sub(r"<[^>]+>", "", text)`.
The second argument is `none` when scanning outside a candidate tag and
`some pend` when a `<` has been seen and `pend` holds (reversed) the
characters read since.  The regex matches from a `<` through the first
following `>` provided at least one character lies between; an unmatched
`<` (no later `>` , or a `>` immediately after) is emitted verbatim, which
is exactly the leftmost-match behaviour of `re.sub`. -/
def stripTagsAux : List Char → Option (List Char) → List Char
  | [], none => []
  | [], some pend => '<' :: pend.reverse
  | c :: cs, none =>
      if c = '<' then stripTagsAux cs (some [])
      else c :: stripTagsAux cs none
  | c :: cs, some pend =>
      if c = '>' then
        match pend with
        | [] => '<' :: '>' :: stripTagsAux cs none
        | _ :: _ => stripTagsAux cs none
      else stripTagsAux cs (some (c :: pend))

/-- `re.sub(r"<[^>]+>", "", text)` from `clean_html`. -/
def stripTags (l : List Char) : List Char := stripTagsAux l none

/-- Modelled from Python's `html.unescape`, restricted to the named entities
that occur in this integration's labels (`&nbsp;` `&lt;` `&gt;` `&amp;`
`&quot;`).  Like `html.unescape` it performs a single left-to-right pass:
replacement text is never rescanned. -/
def unescape : List Char → List Char
  | [] => []
  | '&' :: 'n' :: 'b' :: 's' :: 'p' :: ';' :: rest => '\u00A0' :: unescape rest
  | '&' :: 'l' :: 't' :: ';' :: rest => '<' :: unescape rest
  | '&' :: 'g' :: 't' :: ';' :: rest => '>' :: unescape rest
  | '&' :: 'a' :: 'm' :: 'p' :: ';' :: rest => '&' :: unescape rest
  | '&' :: 'q' :: 'u' :: 'o' :: 't' :: ';' :: rest => '"' :: unescape rest
  | c :: cs => c :: unescape cs

/-- Auxiliary state machine for `re.sub(r"\s+", " ", text)`: the flag is true
while inside a whitespace run whose single replacement `' '` has already been
emitted. -/
def collapseAux : List Char → Bool → List Char
  | [], _ => []
  | c :: cs, inRun =>
      if isSpaceB c then
        if inRun then collapseAux cs true
        else ' ' :: collapseAux cs true
      else c :: collapseAux cs false

/-- `re.sub(r"\s+", " ", text)` from `clean_html`. -/
def collapseWs (l : List Char) : List Char := collapseAux l false

/-- Remove trailing whitespace (the right half of `str.strip`). -/
def dropTrailing : List Char → List Char
  | [] => []
  | c :: cs =>
      match dropTrailing cs with
      | [] => if isSpaceB c then [] else [c]
      | r => c :: r

/-- `str.strip()`: drop leading and trailing whitespace. -/
def stripWs (l : List Char) : List Char := dropTrailing (l.dropWhile isSpaceB)

/-- The whole `clean_html` pipeline on character lists. -/
def cleanChars (l : List Char) : List Char :=
  stripWs (collapseWs (unescape (stripTags l)))

/-- `clean_html` from sensor.py. -/
def clean_html (s : String) : String := String.mk (cleanChars s.data)

/-! ## const.py: sensor types and the Ukrainian name table -/

def SENSOR_TYPE_AQI : String := "aqi"
def SENSOR_TYPE_PM25 : String := "pm25"
def SENSOR_TYPE_PM10 : String := "pm10"
def SENSOR_TYPE_PM1 : String := "pm1"
def SENSOR_TYPE_OZONE : String := "ozone"
def SENSOR_TYPE_NO2 : String := "no2"
def SENSOR_TYPE_SO2 : String := "so2"
def SENSOR_TYPE_CO : String := "co"
def SENSOR_TYPE_TEMPERATURE : String := "temperature"
def SENSOR_TYPE_HUMIDITY : String := "humidity"
def SENSOR_TYPE_PRESSURE : String := "pressure"
def SENSOR_TYPE_WIND_SPEED : String := "wind_speed"
def SENSOR_TYPE_WIND_DIRECTION : String := "wind_direction"

/-- `SENSOR_NAME_MAPPING` from const.py; a Python `dict` iterates in insertion
order, so it is modelled as an ordered association list. -/
def SENSOR_NAME_MAPPING : List (String × String) :=
  [("ТЧ2,5", SENSOR_TYPE_PM25),
   ("ТЧ10", SENSOR_TYPE_PM10),
   ("ТЧ1", SENSOR_TYPE_PM1),
   ("Озон – O", SENSOR_TYPE_OZONE),
   ("Діоксид азоту – NO", SENSOR_TYPE_NO2),
   ("Діоксид сірки – SO", SENSOR_TYPE_SO2),
   ("Оксид вуглецю – CO", SENSOR_TYPE_CO),
   ("Температура повітря", SENSOR_TYPE_TEMPERATURE),
   ("Вологість", SENSOR_TYPE_HUMIDITY),
   ("Тиск", SENSOR_TYPE_PRESSURE),
   ("Швидкість вітру", SENSOR_TYPE_WIND_SPEED),
   ("Напрям вітру", SENSOR_TYPE_WIND_DIRECTION)]

/-! ## sensor.py: `get_sensor_type_from_name` -/

/-- `headMatch needle hay`: `needle` occurs at the start of `hay`. -/
def headMatch : List Char → List Char → Bool
  | [], _ => true
  | _ :: _, [] => false
  | a :: as, b :: bs => a = b && headMatch as bs

/-- `hasSub needle hay`: Python's substring test `needle in hay`. -/
def hasSub (needle : List Char) : List Char → Bool
  | [] => needle.isEmpty
  | c :: cs => headMatch needle (c :: cs) || hasSub needle cs

/-- The `for key, sensor_type in SENSOR_NAME_MAPPING.items()` loop: returns
the value of the first table entry whose key is a substring of `cn`. -/
def lookupMatch : List (String × String) → String → Option String
  | [], _ => none
  | (k, t) :: rest, cn =>
      if hasSub k.data cn.data then some t else lookupMatch rest cn

/-- `get_sensor_type_from_name` from sensor.py. -/
def get_sensor_type_from_name (name : String) : Option String :=
  lookupMatch SENSOR_NAME_MAPPING (clean_html name)

/-! ## api.py: JSON values, exception taxonomy, `_api_request` -/

/-- Parsed JSON, as returned by `response.json()`. -/
inductive Json where
  | null : Json
  | bool (b : Bool) : Json
  | num (q : ℚ) : Json
  | str (s : String) : Json
  | arr (xs : List Json) : Json
  | obj (fields : List (String × Json)) : Json

/-- Python truthiness (`not data`) for parsed JSON values. -/
def Json.isFalsyB : Json → Bool
  | .null => true
  | .bool b => !b
  | .num q => q == 0
  | .str s => s.isEmpty
  | .arr xs => xs.isEmpty
  | .obj fs => fs.isEmpty

/-- `isinstance(data, list)` for parsed JSON values. -/
def Json.isArrB : Json → Bool
  | .arr _ => true
  | _ => false

/-- `len(data)` for a JSON array (`0` for non-arrays, which never reach it). -/
def Json.arrLen : Json → Nat
  | .arr xs => xs.length
  | _ => 0

/-- `data[0]` for a non-empty JSON array (guarded before use). -/
def Json.arrHead : Json → Json
  | .arr (x :: _) => x
  | _ => .null

/-- Exceptions the body of `_api_request`'s `try` can raise.
`clientResponseError` is `aiohttp.ClientResponseError`, raised by
`response.raise_for_status()` on an HTTP error status — in `aiohttp` it is a
subclass of `aiohttp.ClientError`.  `clientConnectionError` stands for every
other (transport-level) `aiohttp.ClientError`.  `timeoutError` is the
`TimeoutError` raised by `async_timeout` when the 30 s bound elapses —
not an `aiohttp.ClientError`.  `jsonDecodeError` is the
`json.JSONDecodeError` (a `ValueError`) raised by `response.json()` on a
malformed JSON body.  `otherError` is any other exception. -/
inductive PyException where
  | clientResponseError (status : Nat) (msg : String)
  | clientConnectionError (msg : String)
  | timeoutError (msg : String)
  | jsonDecodeError (msg : String)
  | otherError (msg : String)

/-- The message text the source interpolates into its wrapped errors. -/
def PyException.msg : PyException → String
  | .clientResponseError _ m => m
  | .clientConnectionError m => m
  | .timeoutError m => m
  | .jsonDecodeError m => m
  | .otherError m => m

/-- `isinstance(err, aiohttp.ClientError)`. -/
def PyException.isAiohttpClientError : PyException → Bool
  | .clientResponseError _ _ => true
  | .clientConnectionError _ => true
  | _ => false

/-- `isinstance(err, TimeoutError)`. -/
def PyException.isTimeoutErrorB : PyException → Bool
  | .timeoutError _ => true
  | _ => false

/-- The two exception classes api.py raises: `PoltavaAirMonitorApiError`
(`apiError`) and its subclass `PoltavaAirMonitorApiConnectionError`
(`connectionError`). -/
inductive ApiFailure where
  | connectionError (msg : String)
  | apiError (msg : String)
deriving DecidableEq

/-- `_api_request` from api.py.  The argument is the outcome of the `try`
body (`.ok` = the parsed JSON; `.error` = the exception it raised); the
`except` clauses are tried in source order: `aiohttp.ClientError` first,
then `TimeoutError`, then `Exception`. -/
def api_request (outcome : Except PyException Json) : Except ApiFailure Json :=
  match outcome with
  | .ok v => .ok v
  | .error e =>
      if e.isAiohttpClientError then
        .error (.connectionError ("Error connecting to API: " ++ e.msg))
      else if e.isTimeoutErrorB then
        .error (.connectionError ("Timeout connecting to API: " ++ e.msg))
      else
        .error (.apiError ("Unexpected error from API: " ++ e.msg))

/-- `get_post_detail` from api.py: unwraps the single-element array, raising
`PoltavaAirMonitorApiError` when `not data or not isinstance(data, list) or
len(data) == 0`. -/
def get_post_detail (post_id : Int) (outcome : Except PyException Json) :
    Except ApiFailure Json :=
  match api_request outcome with
  | .error e => .error e
  | .ok data =>
      if data.isFalsyB || !data.isArrB || data.arrLen == 0 then
        .error (.apiError ("No data returned for post " ++ toString post_id))
      else
        .ok data.arrHead

/-! ## api.py: `find_nearest_post` -/

/-- A post summary, as returned by the posts-list endpoint. -/
structure Post where
  id : Int
  name : String
  address : String
  lat : ℚ
  lng : ℚ
deriving DecidableEq

/-- The square of the planar Euclidean distance computed by the local
`distance` helper of `find_nearest_post`.  The source takes
`(...)** 0.5` of this; `Real.sqrt` is strictly monotone on the
nonnegative rationals, so minimising the square selects the same post, and
the correctness theorem is stated through `Real.sqrt`. -/
def distanceSq (lat1 lon1 lat2 lon2 : ℚ) : ℚ :=
  (lat1 - lat2) ^ 2 + (lon1 - lon2) ^ 2

/-- `find_nearest_post` from api.py, given the already-fetched posts list
(`get_posts` result).  `if not posts: return None`; otherwise Python's
`min(posts, key=...)` returns the first list element with minimal key,
which is exactly `List.argmin`. -/
def find_nearest_post (posts : List Post) (latitude longitude : ℚ) :
    Option Post :=
  if posts.isEmpty then none
  else posts.argmin (fun p => distanceSq latitude longitude p.lat p.lng)

/-! ## sensor.py: the parameter/detail data model and the sensor properties -/

/-- One entry of a detail response's `params` array. -/
structure Param where
  name : String
  currentValue : ℚ
  avgDailyValue : ℚ
  qualityIndex : Int
deriving DecidableEq

/-- The post-detail dict published by the coordinator, with the fields the
sensors read through `.get(...)` (absent keys are `none`); `params` is
`none` when the `"params"` key is absent. -/
structure Detail where
  value : Option ℚ := none
  index : Option ℚ := none
  qualityDesc : Option String := none
  qualityRecommendation : Option String := none
  updated : Option String := none
  name : Option String := none
  address : Option String := none
  description : Option String := none
  params : Option (List Param) := none
deriving DecidableEq

/-- `PoltavaAirMonitorParameterSensor._get_param_data`: the first parameter
whose classified sensor type equals this sensor's type.  `data` is
`coordinator.data` (`none` models absent/falsy data). -/
def get_param_data (sensor_type : String) (data : Option Detail) :
    Option Param :=
  match data with
  | none => none
  | some d =>
      match d.params with
      | none => none
      | some ps =>
          ps.find? (fun p =>
            decide (get_sensor_type_from_name p.name = some sensor_type))

/-- `PoltavaAirMonitorParameterSensor.native_value`: the current value, with
`0` suppressed for the wind-speed, wind-direction and ozone sensors when the
daily average and quality index are both `0`. -/
def param_native_value (sensor_type : String) (data : Option Detail) :
    Option ℚ :=
  match get_param_data sensor_type data with
  | none => none
  | some p =>
      if p.currentValue = 0 ∧
          (sensor_type = SENSOR_TYPE_WIND_SPEED ∨
           sensor_type = SENSOR_TYPE_WIND_DIRECTION ∨
           sensor_type = SENSOR_TYPE_OZONE) then
        if p.avgDailyValue = 0 ∧ p.qualityIndex = 0 then none
        else some p.currentValue
      else some p.currentValue

/-- `PoltavaAirMonitorParameterSensor.extra_state_attributes`: the returned
dict as an ordered key/value list (`{}` = `[]`); `quality_index` is added
only when it is truthy and `> 0`. -/
def param_extra_attrs (sensor_type : String) (data : Option Detail) :
    List (String × ℚ) :=
  match get_param_data sensor_type data with
  | none => []
  | some p =>
      ("daily_average", p.avgDailyValue) ::
        (if 0 < p.qualityIndex then [("quality_index", (p.qualityIndex : ℚ))]
         else [])

/-- `PoltavaAirMonitorAQISensor.native_value`: `data.get("value")` when
coordinator data is present. -/
def aqi_native_value (data : Option Detail) : Option ℚ :=
  match data with
  | none => none
  | some d => d.value

/-- The dict returned by `PoltavaAirMonitorAQISensor.extra_state_attributes`
when coordinator data is present. -/
structure AqiAttrs where
  index : Option ℚ
  description : Option String
  recommendation : Option String
  updated : Option String
  station_name : Option String
  station_address : Option String
  station_type : Option String
deriving DecidableEq

/-- `PoltavaAirMonitorAQISensor.extra_state_attributes` (`none` models the
empty dict returned when no coordinator data is present). -/
def aqi_extra_attrs (data : Option Detail) : Option AqiAttrs :=
  match data with
  | none => none
  | some d =>
      some { index := d.index
             description := d.qualityDesc
             recommendation := d.qualityRecommendation
             updated := d.updated
             station_name := d.name
             station_address := d.address
             station_type := d.description }

/-! ## coordinator.py: `_async_update_data` -/

/-- The configuration surface (`entry.data`): `latitude`/`longitude` present
together mean "resolve nearest every cycle"; `post_id` is the fixed id. -/
structure ConfigData where
  latitude : Option ℚ := none
  longitude : Option ℚ := none
  post_id : Option Int := none

/-- Outcome of one refresh cycle: `published` is a normal return of the new
snapshot, `updateFailed msg` is `raise UpdateFailed(msg)`. -/
inductive UpdateOutcome where
  | published (d : Detail)
  | updateFailed (msg : String)
deriving DecidableEq

/-- The wrapping the two `except` clauses of `_async_update_data` apply to an
API failure before re-raising it as `UpdateFailed`. -/
def failMessage : ApiFailure → String
  | .connectionError m => "Error communicating with API: " ++ m
  | .apiError m => "Error from API: " ++ m

/-- The `get_post_detail` step of `_async_update_data`: its outcome for the
chosen `post_id` is supplied by `detailResult` (already unwrapped to a
`Detail`); an `ApiFailure` propagates to the matching `except` clause. -/
def fetchDetail (detailResult : Int → Except ApiFailure Detail) (pid : Int) :
    UpdateOutcome :=
  match detailResult pid with
  | .ok d => .published d
  | .error e => .updateFailed (failMessage e)

/-- `api.find_nearest_post` as called by the coordinator: `get_posts`'s
outcome is `postsResult`; a failure of the list fetch propagates. -/
def api_find_nearest_post (postsResult : Except ApiFailure (List Post))
    (lat lon : ℚ) : Except ApiFailure (Option Post) :=
  match postsResult with
  | .error e => .error e
  | .ok posts => .ok (find_nearest_post posts lat lon)

/-- `PoltavaAirMonitorCoordinator._async_update_data`.  Note that the
`raise UpdateFailed("No monitoring posts found")` sits inside the `try`
block, so it is caught by the trailing `except Exception` clause and
re-wrapped as `UpdateFailed("Unexpected error: No monitoring posts found")`.
A missing `post_id` key would raise `KeyError`, likewise re-wrapped. -/
def async_update_data (cfg : ConfigData)
    (postsResult : Except ApiFailure (List Post))
    (detailResult : Int → Except ApiFailure Detail) : UpdateOutcome :=
  match cfg.latitude, cfg.longitude with
  | some lat, some lon =>
      match api_find_nearest_post postsResult lat lon with
      | .error e => .updateFailed (failMessage e)
      | .ok none => .updateFailed "Unexpected error: No monitoring posts found"
      | .ok (some p) => fetchDetail detailResult p.id
  | _, _ =>
      match cfg.post_id with
      | none => .updateFailed "Unexpected error: 'post_id'"
      | some pid => fetchDetail detailResult pid

/-! ## config_flow.py: `validate_input` and the error mapping of
`async_step_user` -/

/-- `validate_input` from config_flow.py: given the outcome of
`api.get_posts()`, raise `PoltavaAirMonitorApiError` when the list is empty,
re-wrap a connection error, and otherwise succeed with the posts. -/
def validate_input (postsResult : Except ApiFailure (List Post)) :
    Except ApiFailure (List Post) :=
  match postsResult with
  | .ok posts =>
      if posts.isEmpty then
        .error (.apiError "No monitoring posts available")
      else .ok posts
  | .error (.connectionError _) =>
      .error (.connectionError "Cannot connect to Poltava Air Monitor API")
  | .error e => .error e

/-- The error mapping of `async_step_user`: `none` means validation passed
and the wizard proceeds; `some key` is the `errors["base"]` key shown
(`PoltavaAirMonitorApiConnectionError` is tried before its superclass
`PoltavaAirMonitorApiError`). -/
def async_step_user_error (vres : Except ApiFailure (List Post)) :
    Option String :=
  match vres with
  | .ok _ => none
  | .error (.connectionError _) => some "cannot_connect"
  | .error (.apiError _) => some "unknown"

/-! ## Invariants of the whitespace normalisation

These predicates describe strings in the image of
`stripWs ∘ collapseWs`: every whitespace character is a plain `' '`, no two
adjacent characters are both whitespace, and the ends are not whitespace. -/

/-- Every whitespace character of the list is the plain space `' '`. -/
def SpacesOk (l : List Char) : Prop :=
  ∀ c ∈ l, isSpaceB c = true → c = ' '

/-- No two adjacent characters are both whitespace. -/
def NoAdj : List Char → Prop
  | [] => True
  | [_] => True
  | a :: b :: rest =>
      (isSpaceB a = false ∨ isSpaceB b = false) ∧ NoAdj (b :: rest)

/-- The first character, if any, is not whitespace. -/
def HeadOk : List Char → Prop
  | [] => True
  | c :: _ => isSpaceB c = false

/-- The last character, if any, is not whitespace. -/
def LastOk : List Char → Prop
  | [] => True
  | [c] => isSpaceB c = false
  | _ :: cs => LastOk cs

/-! ## Concrete fixtures used by the witness theorems -/

/-- Two sample posts for exercising `find_nearest_post`. -/
def samplePosts : List Post :=
  [{ id := 1, name := "A", address := "a", lat := 0, lng := 0 },
   { id := 2, name := "B", address := "b", lat := 1, lng := 1 }]

/-- A wind-speed parameter whose three numeric fields are all zero. -/
def windZeroParam : Param :=
  { name := "Швидкість вітру, м/с", currentValue := 0, avgDailyValue := 0,
    qualityIndex := 0 }

/-- Like `windZeroParam` but with daily average `3.1` (the rational `31/10`,
written as an explicit numerator/denominator pair so that kernel reduction
can evaluate it). -/
def windAvgParam : Param :=
  { name := "Швидкість вітру, м/с", currentValue := 0,
    avgDailyValue := ⟨31, 10, by decide, by decide⟩, qualityIndex := 0 }

/-- A PM2.5 parameter whose three numeric fields are all zero. -/
def pmZeroParam : Param :=
  { name := "ТЧ2,5,&nbsp;мкг/м<sup>3</sup>", currentValue := 0,
    avgDailyValue := 0, qualityIndex := 0 }

/-- A sample detail snapshot with an empty `params` array. -/
def emptyParamsDetail : Detail :=
  { value := some 42, index := some 2, qualityDesc := some "Добра",
    qualityRecommendation := some "ok", updated := some "2024-01-01",
    name := some "Post", address := some "Street", description := some "mon",
    params := some [] }

/-! ## Helper lemmas -/

theorem spacesOk_tail (c : Char) (cs : List Char) (h : SpacesOk (c :: cs)) :
    SpacesOk cs :=
  fun x hx hs => h x (List.mem_cons_of_mem _ hx) hs

theorem spacesOk_cons {c : Char} {cs : List Char}
    (h1 : isSpaceB c = true → c = ' ') (h2 : SpacesOk cs) :
    SpacesOk (c :: cs) := by
  intro x hx hs
  rcases List.mem_cons.mp hx with rfl | hx
  · exact h1 hs
  · exact h2 x hx hs

theorem noAdj_tail (c : Char) (cs : List Char) (h : NoAdj (c :: cs)) :
    NoAdj cs := by
  cases cs with
  | nil => trivial
  | cons d ds => exact h.2

theorem noAdj_cons_left {c : Char} {X : List Char} (hc : isSpaceB c = false)
    (hX : NoAdj X) : NoAdj (c :: X) := by
  cases X with
  | nil => trivial
  | cons x xs => exact ⟨Or.inl hc, hX⟩

theorem noAdj_cons_right {c : Char} {X : List Char} (hH : HeadOk X)
    (hX : NoAdj X) : NoAdj (c :: X) := by
  cases X with
  | nil => trivial
  | cons x xs => exact ⟨Or.inr hH, hX⟩

theorem unescape_cons_of_ne (c : Char) (cs : List Char) (hc : c ≠ '&') :
    unescape (c :: cs) = c :: unescape cs := by
  rw [unescape.eq_def]
  split
  all_goals simp_all

theorem unescape_no_amp (l : List Char) (h : '&' ∉ l) : unescape l = l := by
  induction l with
  | nil => rfl
  | cons c cs ih =>
      have hc : c ≠ '&' := fun e => h (by simp [e])
      have hcs : '&' ∉ cs := fun hm => h (List.mem_cons_of_mem _ hm)
      rw [unescape_cons_of_ne c cs hc, ih hcs]

theorem stripTagsAux_no_lt (l : List Char) (h : '<' ∉ l) :
    stripTagsAux l none = l := by
  induction l with
  | nil => rfl
  | cons c cs ih =>
      have hc : c ≠ '<' := fun e => h (by simp [e])
      have hcs : '<' ∉ cs := fun hm => h (List.mem_cons_of_mem _ hm)
      simp [stripTagsAux, hc, ih hcs]

theorem collapseAux_spacesOk : ∀ (l : List Char) (b : Bool),
    SpacesOk (collapseAux l b) := by
  intro l
  induction l with
  | nil => intro b c hc; simp [collapseAux] at hc
  | cons c cs ih =>
      intro b
      by_cases hs : isSpaceB c = true
      · cases b with
        | true => simpa [collapseAux, hs] using ih true
        | false =>
            simp only [collapseAux, hs, if_true]
            exact spacesOk_cons (fun _ => rfl) (ih true)
      · simp only [collapseAux, hs, if_false]
        exact spacesOk_cons (fun h => absurd h hs) (ih false)

theorem collapseAux_true_headOk : ∀ l : List Char,
    HeadOk (collapseAux l true) := by
  intro l
  induction l with
  | nil => trivial
  | cons c cs ih =>
      by_cases hs : isSpaceB c = true
      · simpa [collapseAux, hs] using ih
      · simp only [collapseAux, hs, if_false]
        simpa [HeadOk] using hs

theorem collapseAux_noAdj : ∀ (l : List Char) (b : Bool),
    NoAdj (collapseAux l b) := by
  intro l
  induction l with
  | nil => intro b; trivial
  | cons c cs ih =>
      intro b
      by_cases hs : isSpaceB c = true
      · cases b with
        | true => simpa [collapseAux, hs] using ih true
        | false =>
            simp only [collapseAux, hs, if_true]
            exact noAdj_cons_right (collapseAux_true_headOk cs) (ih true)
      · simp only [collapseAux, hs, if_false]
        exact noAdj_cons_left (by simpa using hs) (ih false)

theorem collapse_id : ∀ y : List Char, SpacesOk y → NoAdj y →
    collapseAux y false = y ∧ (HeadOk y → collapseAux y true = y) := by
  intro y
  induction y with
  | nil => exact fun _ _ => ⟨rfl, fun _ => rfl⟩
  | cons c cs ih =>
      intro hS hN
      have ihcs := ih (spacesOk_tail _ _ hS) (noAdj_tail _ _ hN)
      by_cases hs : isSpaceB c = true
      · have hc : c = ' ' := hS c (by simp) hs
        have hH : HeadOk cs := by
          cases cs with
          | nil => trivial
          | cons d ds =>
              rcases hN.1 with h | h
              · rw [hs] at h; cases h
              · exact h
        constructor
        · subst hc
          have he : collapseAux (' ' :: cs) false = ' ' :: collapseAux cs true := by
            simp [collapseAux, isSpaceB]
          rw [he, ihcs.2 hH]
        · intro hHead
          rw [HeadOk, hs] at hHead
          cases hHead
      · constructor
        · simp [collapseAux, hs, ihcs.1]
        · intro _; simp [collapseAux, hs, ihcs.1]

theorem dropWhile_headOk : ∀ l : List Char, HeadOk (l.dropWhile isSpaceB) := by
  intro l
  induction l with
  | nil => trivial
  | cons c cs ih =>
      by_cases hs : isSpaceB c = true
      · simpa [List.dropWhile_cons, hs] using ih
      · simp [List.dropWhile_cons, hs, HeadOk]

theorem dropWhile_id_of_headOk {l : List Char} (h : HeadOk l) :
    l.dropWhile isSpaceB = l := by
  cases l with
  | nil => rfl
  | cons c cs => simp [List.dropWhile_cons, HeadOk] at h ⊢; simp [h]

theorem lastOk_tail (c : Char) (cs : List Char) (h : LastOk (c :: cs)) :
    LastOk cs := by
  cases cs with
  | nil => trivial
  | cons d ds => exact h

theorem dropWhile_lastOk {l : List Char} (h : LastOk l) :
    LastOk (l.dropWhile isSpaceB) := by
  induction l with
  | nil => trivial
  | cons c cs ih =>
      by_cases hs : isSpaceB c = true
      · simpa [List.dropWhile_cons, hs] using ih (lastOk_tail _ _ h)
      · simpa [List.dropWhile_cons, hs] using h

theorem dropWhile_spacesOk {l : List Char} (h : SpacesOk l) :
    SpacesOk (l.dropWhile isSpaceB) :=
  fun x hx hs => h x (List.dropWhile_subset _ hx) hs

theorem dropWhile_noAdj {l : List Char} (h : NoAdj l) :
    NoAdj (l.dropWhile isSpaceB) := by
  induction l with
  | nil => trivial
  | cons c cs ih =>
      by_cases hs : isSpaceB c = true
      · simpa [List.dropWhile_cons, hs] using ih (noAdj_tail _ _ h)
      · simpa [List.dropWhile_cons, hs] using h

theorem dropTrailing_shape (c : Char) (cs : List Char) :
    dropTrailing (c :: cs) = [] ∨ ∃ r, dropTrailing (c :: cs) = c :: r := by
  rw [dropTrailing]
  cases h : dropTrailing cs with
  | nil =>
      by_cases hs : isSpaceB c = true
      · left; simp [hs]
      · right; exact ⟨[], by simp [hs]⟩
  | cons x xs => right; exact ⟨x :: xs, rfl⟩

theorem dropTrailing_lastOk : ∀ l : List Char, LastOk (dropTrailing l) := by
  intro l
  induction l with
  | nil => trivial
  | cons c cs ih =>
      rw [dropTrailing]
      cases h : dropTrailing cs with
      | nil =>
          show LastOk (if isSpaceB c = true then [] else [c])
          by_cases hs : isSpaceB c = true
          · rw [if_pos hs]; trivial
          · rw [if_neg hs]
            show isSpaceB c = false
            simpa using hs
      | cons x xs =>
          rw [h] at ih
          exact ih

theorem dropTrailing_id : ∀ l : List Char, LastOk l → dropTrailing l = l := by
  intro l
  induction l with
  | nil => exact fun _ => rfl
  | cons c cs ih =>
      intro h
      cases cs with
      | nil =>
          rw [LastOk] at h
          simp [dropTrailing, h]
      | cons d ds =>
          rw [dropTrailing, ih (lastOk_tail _ _ h)]

theorem dropTrailing_headOk {l : List Char} (h : HeadOk l) :
    HeadOk (dropTrailing l) := by
  cases l with
  | nil => trivial
  | cons c cs =>
      rcases dropTrailing_shape c cs with h0 | ⟨r, hr⟩
      · rw [h0]; trivial
      · rw [hr]; exact h

theorem dropTrailing_subset : ∀ (l : List Char), ∀ x ∈ dropTrailing l, x ∈ l := by
  intro l
  induction l with
  | nil => intro x hx; exact hx
  | cons c cs ih =>
      intro x hx
      rw [dropTrailing] at hx
      cases h : dropTrailing cs with
      | nil =>
          rw [h] at hx
          by_cases hs : isSpaceB c = true
          · simp [hs] at hx
          · simp [hs] at hx
            simp [hx]
      | cons y ys =>
          rw [h] at hx
          rcases List.mem_cons.mp hx with rfl | hx
          · simp
          · exact List.mem_cons_of_mem _ (ih x (h ▸ hx))

theorem dropTrailing_spacesOk {l : List Char} (h : SpacesOk l) :
    SpacesOk (dropTrailing l) :=
  fun x hx hs => h x (dropTrailing_subset l x hx) hs

theorem dropTrailing_noAdj : ∀ l : List Char, NoAdj l → NoAdj (dropTrailing l) := by
  intro l
  induction l with
  | nil => exact fun _ => trivial
  | cons c cs ih =>
      intro hN
      rw [dropTrailing]
      cases h : dropTrailing cs with
      | nil =>
          show NoAdj (if isSpaceB c = true then [] else [c])
          by_cases hs : isSpaceB c = true
          · rw [if_pos hs]; trivial
          · rw [if_neg hs]; trivial
      | cons x xs =>
          have hcs : NoAdj (x :: xs) := h ▸ ih (noAdj_tail _ _ hN)
          cases cs with
          | nil => rw [dropTrailing] at h; cases h
          | cons d ds =>
              rcases dropTrailing_shape d ds with h0 | ⟨r, hr⟩
              · rw [h0] at h; cases h
              · rw [hr] at h
                injection h with h1 h2
                subst h1
                exact ⟨hN.1, hcs⟩

theorem stripWs_normalised (w : List Char) :
    SpacesOk (stripWs (collapseWs w)) ∧ NoAdj (stripWs (collapseWs w)) ∧
      HeadOk (stripWs (collapseWs w)) ∧ LastOk (stripWs (collapseWs w)) := by
  unfold stripWs collapseWs
  refine ⟨dropTrailing_spacesOk (dropWhile_spacesOk (collapseAux_spacesOk w false)),
    dropTrailing_noAdj _ (dropWhile_noAdj (collapseAux_noAdj w false)),
    dropTrailing_headOk (dropWhile_headOk _),
    dropTrailing_lastOk _⟩

theorem normWs_idem (w : List Char) :
    stripWs (collapseWs (stripWs (collapseWs w))) = stripWs (collapseWs w) := by
  obtain ⟨hS, hN, hH, hL⟩ := stripWs_normalised w
  have h1 : collapseWs (stripWs (collapseWs w)) = stripWs (collapseWs w) :=
    (collapse_id _ hS hN).1
  rw [h1]
  show stripWs (stripWs (collapseWs w)) = stripWs (collapseWs w)
  unfold stripWs
  rw [dropWhile_id_of_headOk, dropTrailing_id]
  · exact hL
  · exact hH

theorem lookupMatch_none_iff (tbl : List (String × String)) (cn : String) :
    lookupMatch tbl cn = none ↔
      ∀ kt ∈ tbl, hasSub kt.1.data cn.data = false := by
  induction tbl with
  | nil => simp [lookupMatch]
  | cons kt rest ih =>
      obtain ⟨k, t⟩ := kt
      by_cases h : hasSub k.data cn.data = true
      · constructor
        · intro hnone
          rw [lookupMatch, if_pos h] at hnone
          cases hnone
        · intro hall
          exact absurd (hall (k, t) (List.mem_cons_self _ _)) (by simp [h])
      · constructor
        · intro hnone kt' hm
          rcases List.mem_cons.mp hm with rfl | hm'
          · simpa using h
          · rw [lookupMatch, if_neg h] at hnone
            exact (ih.mp hnone) kt' hm'
        · intro hall
          rw [lookupMatch, if_neg h]
          exact ih.mpr fun kt' hm' => hall kt' (List.mem_cons_of_mem _ hm')

theorem lookupMatch_some_iff (tbl : List (String × String)) (cn t : String) :
    lookupMatch tbl cn = some t ↔
      ∃ i, ∃ hi : i < tbl.length,
        (tbl.get ⟨i, hi⟩).2 = t ∧
        hasSub (tbl.get ⟨i, hi⟩).1.data cn.data = true ∧
        ∀ j (hj : j < tbl.length), j < i →
          hasSub (tbl.get ⟨j, hj⟩).1.data cn.data = false := by
  induction tbl with
  | nil => simp [lookupMatch]
  | cons kt rest ih =>
      obtain ⟨k, v⟩ := kt
      by_cases h : hasSub k.data cn.data = true
      · rw [lookupMatch, if_pos h]
        constructor
        · intro ht
          injection ht with ht
          exact ⟨0, Nat.succ_pos _, by simpa using ht, by simpa using h,
            fun j hj hlt => absurd hlt (Nat.not_lt_zero j)⟩
        · rintro ⟨i, hi, h1, h2, h3⟩
          cases i with
          | zero => simpa using congrArg some h1
          | succ n =>
              have h0 := h3 0 (Nat.succ_pos _) (Nat.succ_pos n)
              simp at h0
              exact absurd h (by simp [h0])
      · rw [lookupMatch, if_neg h, ih]
        have hk : hasSub k.data cn.data = false := by simpa using h
        constructor
        · rintro ⟨i, hi, h1, h2, h3⟩
          refine ⟨i + 1, Nat.succ_lt_succ hi, by simpa using h1,
            by simpa using h2, ?_⟩
          intro j hj hlt
          cases j with
          | zero => simpa using hk
          | succ m =>
              have hm : m < rest.length := Nat.lt_of_succ_lt_succ hj
              have := h3 m hm (Nat.lt_of_succ_lt_succ hlt)
              simpa using this
        · rintro ⟨i, hi, h1, h2, h3⟩
          cases i with
          | zero =>
              exfalso
              apply h
              simpa using h2
          | succ n =>
              have hn : n < rest.length := Nat.lt_of_succ_lt_succ hi
              refine ⟨n, hn, by simpa using h1, by simpa using h2, ?_⟩
              intro j hj hlt
              have := h3 (j + 1) (Nat.succ_lt_succ hj) (Nat.succ_lt_succ hlt)
              simpa using this

theorem find?_first {α : Type} (p : α → Bool) :
    ∀ (l : List α) (a : α), l.find? p = some a →
      ∃ i, ∃ hi : i < l.length, l.get ⟨i, hi⟩ = a ∧ p a = true ∧
        ∀ j (hj : j < l.length), j < i → p (l.get ⟨j, hj⟩) = false := by
  intro l
  induction l with
  | nil => intro a h; simp at h
  | cons x xs ih =>
      intro a h
      by_cases hx : p x = true
      · rw [List.find?_cons_of_pos _ hx] at h
        injection h with h
        subst h
        exact ⟨0, Nat.succ_pos _, by simp, hx,
          fun j hj hlt => absurd hlt (Nat.not_lt_zero j)⟩
      · have hx' : p x = false := by simpa using hx
        rw [List.find?_cons_of_neg _ (by simp [hx'])] at h
        obtain ⟨i, hi, h1, h2, h3⟩ := ih a h
        refine ⟨i + 1, Nat.succ_lt_succ hi, by simpa using h1, h2, ?_⟩
        intro j hj hlt
        cases j with
        | zero => simpa using hx'
        | succ m =>
            have hm : m < xs.length := Nat.lt_of_succ_lt_succ hj
            have := h3 m hm (Nat.lt_of_succ_lt_succ hlt)
            simpa using this

theorem param_native_value_of_param {st : String} {data : Option Detail}
    {p : Param} (hp : get_param_data st data = some p) :
    param_native_value st data =
      if p.currentValue = 0 ∧
          (st = SENSOR_TYPE_WIND_SPEED ∨ st = SENSOR_TYPE_WIND_DIRECTION ∨
           st = SENSOR_TYPE_OZONE) then
        if p.avgDailyValue = 0 ∧ p.qualityIndex = 0 then none
        else some p.currentValue
      else some p.currentValue := by
  unfold param_native_value
  rw [hp]

theorem param_native_value_of_none {st : String} {data : Option Detail}
    (hp : get_param_data st data = none) : param_native_value st data = none := by
  unfold param_native_value
  rw [hp]

theorem param_extra_attrs_of_none {st : String} {data : Option Detail}
    (hp : get_param_data st data = none) : param_extra_attrs st data = [] := by
  unfold param_extra_attrs
  rw [hp]

/-- The squared planar distance is nonnegative. -/
theorem distanceSq_nonneg (a b c d : ℚ) : 0 ≤ distanceSq a b c d :=
  add_nonneg (sq_nonneg _) (sq_nonneg _)

/-! ## Claim theorems -/

/-- C2, counterexample: an HTTP error status makes `raise_for_status` raise
`aiohttp.ClientResponseError`, which is an `aiohttp.ClientError`, so
`_api_request` reports it as `PoltavaAirMonitorApiConnectionError` — not as
the claimed `ApiError`. -/
theorem C2_counterexample_http_status :
    api_request (.error (.clientResponseError 500 "boom")) =
      .error (.connectionError "Error connecting to API: boom") := by
  rfl

/-- C2 (amended): a timeout is reported as `ConnectionError`; an
`aiohttp.ClientError` — including the HTTP-error-status exception raised by
`raise_for_status` — is also reported as `ConnectionError`; every other
unexpected failure, including malformed JSON in the response body, is
reported as `ApiError`. -/
theorem C2_error_taxonomy (e : PyException) :
    (e.isTimeoutErrorB = true →
      api_request (.error e) =
        .error (.connectionError ("Timeout connecting to API: " ++ e.msg))) ∧
    (e.isAiohttpClientError = true →
      api_request (.error e) =
        .error (.connectionError ("Error connecting to API: " ++ e.msg))) ∧
    (e.isAiohttpClientError = false → e.isTimeoutErrorB = false →
      api_request (.error e) =
        .error (.apiError ("Unexpected error from API: " ++ e.msg))) := by
  cases e <;>
    simp [api_request, PyException.isTimeoutErrorB,
      PyException.isAiohttpClientError, PyException.msg]

/-- Witness for C2: evaluating the theorem at a concrete timeout. -/
theorem C2_error_taxonomy_witness :
    api_request (.error (.timeoutError "slow")) =
      .error (.connectionError ("Timeout connecting to API: " ++ "slow")) :=
  (C2_error_taxonomy (.timeoutError "slow")).1 rfl

/-- C3, counterexample: `clean_html` is not idempotent — decoding the
entities of `"&lt;b&gt;"` produces the tag `"<b>"`, which a second
application strips away entirely. -/
theorem C3_counterexample_not_idempotent :
    clean_html (clean_html "&lt;b&gt;") ≠ clean_html "&lt;b&gt;" := by
  decide

/-- C3 (amended): `clean_html` is idempotent on every input whose cleaned
form contains neither `'<'` nor `'&'` — entity decoding can reintroduce tag
and entity characters that a second pass consumes, but in their absence the
second pass is the identity. -/
theorem C3_clean_html_conditionally_idempotent (x : String)
    (h : ∀ c ∈ (clean_html x).data, c ≠ '<' ∧ c ≠ '&') :
    clean_html (clean_html x) = clean_html x := by
  have hlt : '<' ∉ (clean_html x).data := fun hm => (h _ hm).1 rfl
  have hamp : '&' ∉ (clean_html x).data := fun hm => (h _ hm).2 rfl
  have hdata : (clean_html x).data = cleanChars x.data := rfl
  have key : cleanChars (clean_html x).data = (clean_html x).data := by
    unfold cleanChars
    rw [show stripTags (clean_html x).data = (clean_html x).data from
        stripTagsAux_no_lt _ hlt,
      unescape_no_amp _ hamp, hdata]
    show stripWs (collapseWs (stripWs (collapseWs (unescape (stripTags x.data))))) =
      cleanChars x.data
    rw [normWs_idem]
    rfl
  show String.mk (cleanChars (clean_html x).data) = clean_html x
  rw [key]

/-- Witness for C3 (amended): a cleaned form free of `'<'` and `'&'`. -/
theorem C3_clean_html_conditionally_idempotent_witness :
    clean_html (clean_html "  ab   c ") = clean_html "  ab   c " :=
  C3_clean_html_conditionally_idempotent "  ab   c " (by decide)

/-- C5: `get_post_detail` fails with `ApiError` (not `ConnectionError`) when
the parsed response is falsy, not an array, or an array with zero elements;
for a non-empty array it returns the first element. -/
theorem C5_get_post_detail_unwraps (post_id : Int) (v : Json) :
    ((v.isFalsyB = true ∨ v.isArrB = false ∨ v = .arr []) →
      get_post_detail post_id (.ok v) =
        .error (.apiError ("No data returned for post " ++ toString post_id))) ∧
    (∀ x xs, v = .arr (x :: xs) → get_post_detail post_id (.ok v) = .ok x) := by
  constructor
  · intro h
    rcases h with h | h | h
    · simp [get_post_detail, api_request, h]
    · simp [get_post_detail, api_request, h]
    · subst h
      simp [get_post_detail, api_request, Json.isFalsyB, Json.isArrB,
        Json.arrLen]
  · rintro x xs rfl
    simp [get_post_detail, api_request, Json.isFalsyB, Json.isArrB,
      Json.arrLen, Json.arrHead]

/-- Witness for C5: the empty-array and singleton-array responses. -/
theorem C5_get_post_detail_unwraps_witness :
    get_post_detail 7 (.ok (.arr [])) =
      .error (.apiError ("No data returned for post " ++ toString (7 : Int))) ∧
    get_post_detail 7 (.ok (.arr [.str "d"])) = .ok (.str "d") :=
  ⟨(C5_get_post_detail_unwraps 7 (.arr [])).1 (Or.inr (Or.inr rfl)),
   (C5_get_post_detail_unwraps 7 (.arr [.str "d"])).2 (.str "d") [] rfl⟩

/-- C6: for the wind-speed, wind-direction and ozone sensors only, a
parameter reading `currentValue = 0, avgDailyValue = 0, qualityIndex = 0`
presents as no value, while `currentValue = 0` with a non-zero daily average
presents as the literal `0`; all other sensor types present the literal `0`
unconditionally. -/
theorem C6_zero_suppression (st : String) (data : Option Detail) (p : Param)
    (hp : get_param_data st data = some p) (hcv : p.currentValue = 0) :
    ((st = SENSOR_TYPE_WIND_SPEED ∨ st = SENSOR_TYPE_WIND_DIRECTION ∨
        st = SENSOR_TYPE_OZONE) →
      (p.avgDailyValue = 0 ∧ p.qualityIndex = 0 →
        param_native_value st data = none) ∧
      (p.avgDailyValue ≠ 0 → param_native_value st data = some 0)) ∧
    (¬(st = SENSOR_TYPE_WIND_SPEED ∨ st = SENSOR_TYPE_WIND_DIRECTION ∨
        st = SENSOR_TYPE_OZONE) →
      param_native_value st data = some 0) := by
  have he := param_native_value_of_param hp
  constructor
  · intro hst
    constructor
    · rintro ⟨ha, hq⟩
      rw [he, if_pos ⟨hcv, hst⟩, if_pos ⟨ha, hq⟩]
    · intro ha
      rw [he, if_pos ⟨hcv, hst⟩, if_neg fun hh => ha hh.1, hcv]
  · intro hst
    rw [he, if_neg fun hh => hst hh.2, hcv]

/-- Witness for C6: a wind-speed sensor with an all-zero parameter reads
no value; with daily average `3.1` it reads `0`; a PM2.5 sensor with an
all-zero parameter still reads `0`. -/
theorem C6_zero_suppression_witness :
    param_native_value SENSOR_TYPE_WIND_SPEED
        (some { params := some [windZeroParam] }) = none ∧
    param_native_value SENSOR_TYPE_WIND_SPEED
        (some { params := some [windAvgParam] }) = some 0 ∧
    param_native_value SENSOR_TYPE_PM25
        (some { params := some [pmZeroParam] }) = some 0 :=
  ⟨((C6_zero_suppression _ _ windZeroParam (by decide) rfl).1
      (Or.inl rfl)).1 ⟨rfl, rfl⟩,
   ((C6_zero_suppression _ _ windAvgParam (by decide) rfl).1
      (Or.inl rfl)).2 (by decide),
   (C6_zero_suppression _ _ pmZeroParam (by decide) rfl).2 (by decide)⟩

/-- C10: when the posts-list fetch succeeds but the list is empty,
`validate_input` raises `PoltavaAirMonitorApiError`, which `async_step_user`
maps to the "unknown" form error, so the entry cannot be configured. -/
theorem C10_empty_posts_rejected :
    validate_input (.ok []) = .error (.apiError "No monitoring posts available") ∧
    async_step_user_error (validate_input (.ok [])) = some "unknown" :=
  ⟨rfl, rfl⟩

/-- C4: `get_sensor_type_from_name` first cleans the label, then tests the
`SENSOR_NAME_MAPPING` table in order under substring containment, returning
the sensor type of the first contained key and `none` when no key is
contained; in particular the PM2.5 label classifies as PM2.5 and an
unrelated label is unclassified. -/
theorem C4_classification (name : String) :
    get_sensor_type_from_name "<b>ТЧ2,5</b>,&nbsp;мкг/м<sup>3</sup>" =
      some SENSOR_TYPE_PM25 ∧
    get_sensor_type_from_name "Random Unrelated Text" = none ∧
    (get_sensor_type_from_name name = none ↔
      ∀ kt ∈ SENSOR_NAME_MAPPING,
        hasSub kt.1.data (clean_html name).data = false) ∧
    (∀ t, get_sensor_type_from_name name = some t ↔
      ∃ i, ∃ hi : i < SENSOR_NAME_MAPPING.length,
        (SENSOR_NAME_MAPPING.get ⟨i, hi⟩).2 = t ∧
        hasSub (SENSOR_NAME_MAPPING.get ⟨i, hi⟩).1.data
          (clean_html name).data = true ∧
        ∀ j (hj : j < SENSOR_NAME_MAPPING.length), j < i →
          hasSub (SENSOR_NAME_MAPPING.get ⟨j, hj⟩).1.data
            (clean_html name).data = false) :=
  ⟨by decide, by decide,
   lookupMatch_none_iff SENSOR_NAME_MAPPING (clean_html name),
   fun t => lookupMatch_some_iff SENSOR_NAME_MAPPING (clean_html name) t⟩

/-- Witness for C4: the humidity key is the first (and only) table entry
contained in the cleaned humidity label. -/
theorem C4_classification_witness :
    ∃ i, ∃ hi : i < SENSOR_NAME_MAPPING.length,
      (SENSOR_NAME_MAPPING.get ⟨i, hi⟩).2 = SENSOR_TYPE_HUMIDITY ∧
      hasSub (SENSOR_NAME_MAPPING.get ⟨i, hi⟩).1.data
        (clean_html "Вологість, %").data = true ∧
      ∀ j (hj : j < SENSOR_NAME_MAPPING.length), j < i →
        hasSub (SENSOR_NAME_MAPPING.get ⟨j, hj⟩).1.data
          (clean_html "Вологість, %").data = false :=
  (((C4_classification "Вологість, %").2.2.2 SENSOR_TYPE_HUMIDITY).mp
    (by decide))

/-- C7: with explicit coordinates configured, each cycle resolves the post
over the freshly fetched list and fails with the no-posts reason when the
list is empty or resolution yields nothing (the in-`try` `UpdateFailed` is
re-wrapped by the trailing `except Exception`); without coordinates the
configured fixed post id is used and the posts list plays no role at all. -/
theorem C7_post_resolution (cfg : ConfigData)
    (detailResult : Int → Except ApiFailure Detail) :
    (∀ lat lon posts, cfg.latitude = some lat → cfg.longitude = some lon →
      (posts = [] →
        async_update_data cfg (.ok posts) detailResult =
          .updateFailed "Unexpected error: No monitoring posts found") ∧
      (find_nearest_post posts lat lon = none →
        async_update_data cfg (.ok posts) detailResult =
          .updateFailed "Unexpected error: No monitoring posts found") ∧
      (∀ p, find_nearest_post posts lat lon = some p →
        async_update_data cfg (.ok posts) detailResult =
          fetchDetail detailResult p.id)) ∧
    (∀ pid, (cfg.latitude = none ∨ cfg.longitude = none) →
      cfg.post_id = some pid →
      ∀ postsResult, async_update_data cfg postsResult detailResult =
        fetchDetail detailResult pid) := by
  constructor
  · intro lat lon posts hlat hlon
    refine ⟨?_, ?_, ?_⟩
    · rintro rfl
      simp [async_update_data, hlat, hlon, api_find_nearest_post,
        find_nearest_post]
    · intro hnone
      simp [async_update_data, hlat, hlon, api_find_nearest_post, hnone]
    · intro p hp
      simp [async_update_data, hlat, hlon, api_find_nearest_post, hp]
  · intro pid hor hpid postsResult
    rcases hor with h | h
    · cases hl : cfg.longitude <;>
        simp [async_update_data, h, hl, hpid]
    · cases hl : cfg.latitude <;>
        simp [async_update_data, h, hl, hpid]

/-- Witness for C7: a coordinate configuration over an empty list fails with
the no-posts reason; a fixed-id configuration fetches that id regardless of
the posts outcome. -/
theorem C7_post_resolution_witness :
    async_update_data { latitude := some 1, longitude := some 2 }
        (.ok []) (fun _ => .ok emptyParamsDetail) =
      .updateFailed "Unexpected error: No monitoring posts found" ∧
    async_update_data { post_id := some 5 }
        (.error (.connectionError "down")) (fun _ => .ok emptyParamsDetail) =
      fetchDetail (fun _ => .ok emptyParamsDetail) 5 :=
  ⟨((C7_post_resolution _ _).1 1 2 [] rfl rfl).1 rfl,
   (C7_post_resolution _ _).2 5 (Or.inl rfl) rfl _⟩

/-- C8: a detail response whose `params` array is empty publishes as a
successful snapshot: the API client unwraps it without error, the
coordinator publishes it, the AQI sensor exposes its value and station
attributes, and no parameter sensor finds a classified channel. -/
theorem C8_empty_params_snapshot (x : Json) (pid : Int) (d : Detail)
    (postsResult : Except ApiFailure (List Post))
    (detailResult : Int → Except ApiFailure Detail) :
    (get_post_detail pid (.ok (.arr [x])) = .ok x) ∧
    (∀ cfg : ConfigData, cfg.latitude = none → cfg.post_id = some pid →
      detailResult pid = .ok d →
      async_update_data cfg postsResult detailResult = .published d) ∧
    (d.params = some [] →
      aqi_native_value (some d) = d.value ∧
      aqi_extra_attrs (some d) =
        some { index := d.index, description := d.qualityDesc,
               recommendation := d.qualityRecommendation,
               updated := d.updated, station_name := d.name,
               station_address := d.address,
               station_type := d.description } ∧
      ∀ st, get_param_data st (some d) = none) := by
  refine ⟨?_, ?_, ?_⟩
  · simp [get_post_detail, api_request, Json.isFalsyB, Json.isArrB,
      Json.arrLen, Json.arrHead]
  · intro cfg hlat hpid hdet
    cases hl : cfg.longitude <;>
      simp [async_update_data, hlat, hl, hpid, fetchDetail, hdet]
  · intro hps
    refine ⟨rfl, rfl, fun st => ?_⟩
    simp [get_param_data, hps]

/-- Witness for C8: a concrete empty-`params` snapshot flows through the
client, the coordinator and the sensors. -/
theorem C8_empty_params_snapshot_witness :
    get_post_detail 3 (.ok (.arr [.num 1])) = .ok (.num 1) ∧
    async_update_data { post_id := some 3 } (.ok [])
        (fun _ => .ok emptyParamsDetail) = .published emptyParamsDetail ∧
    aqi_native_value (some emptyParamsDetail) = emptyParamsDetail.value ∧
    get_param_data SENSOR_TYPE_PM25 (some emptyParamsDetail) = none := by
  have h := C8_empty_params_snapshot (.num 1) 3 emptyParamsDetail (.ok [])
    (fun _ => .ok emptyParamsDetail)
  exact ⟨h.1, h.2.1 _ rfl rfl rfl, (h.2.2 rfl).1, (h.2.2 rfl).2.2 _⟩

/-- C9: a parameter sensor reads from the first parameter of the snapshot's
`params` sequence that classifies to its sensor type — later parameters
classifying to the same type are ignored — and when none does it presents
no value and no attributes. -/
theorem C9_first_match_param (st : String) (data : Option Detail) :
    (∀ p, get_param_data st data = some p →
      ∃ d ps, data = some d ∧ d.params = some ps ∧
        get_sensor_type_from_name p.name = some st ∧
        ∃ i, ∃ hi : i < ps.length, ps.get ⟨i, hi⟩ = p ∧
          ∀ j (hj : j < ps.length), j < i →
            get_sensor_type_from_name (ps.get ⟨j, hj⟩).name ≠ some st) ∧
    (get_param_data st data = none →
      param_native_value st data = none ∧ param_extra_attrs st data = []) := by
  constructor
  · intro p hp
    cases data with
    | none => simp [get_param_data] at hp
    | some d =>
        cases hps : d.params with
        | none => simp [get_param_data, hps] at hp
        | some ps =>
            simp only [get_param_data, hps] at hp
            obtain ⟨i, hi, h1, h2, h3⟩ := find?_first _ ps p hp
            refine ⟨d, ps, rfl, hps, of_decide_eq_true h2, i, hi, h1, ?_⟩
            intro j hj hlt
            exact of_decide_eq_false (h3 j hj hlt)
  · intro hp
    exact ⟨param_native_value_of_none hp, param_extra_attrs_of_none hp⟩

/-- Witness for C9: with two wind-speed parameters in sequence, the sensor
reads the first; with no matching parameter it reads nothing. -/
theorem C9_first_match_param_witness :
    (∃ d ps, (some { params := some [windZeroParam, windAvgParam] } :
        Option Detail) = some d ∧ d.params = some ps ∧
      get_sensor_type_from_name windZeroParam.name =
        some SENSOR_TYPE_WIND_SPEED ∧
      ∃ i, ∃ hi : i < ps.length, ps.get ⟨i, hi⟩ = windZeroParam ∧
        ∀ j (hj : j < ps.length), j < i →
          get_sensor_type_from_name (ps.get ⟨j, hj⟩).name ≠
            some SENSOR_TYPE_WIND_SPEED) ∧
    (param_native_value SENSOR_TYPE_PM25
        (some { params := some [windZeroParam] }) = none ∧
      param_extra_attrs SENSOR_TYPE_PM25
        (some { params := some [windZeroParam] }) = []) :=
  ⟨(C9_first_match_param SENSOR_TYPE_WIND_SPEED
      (some { params := some [windZeroParam, windAvgParam] })).1
      windZeroParam (by decide),
   (C9_first_match_param SENSOR_TYPE_PM25
      (some { params := some [windZeroParam] })).2 (by decide)⟩

/-- C1: `find_nearest_post` on the empty list returns `none`; on a non-empty
list it returns a member of that exact list whose planar Euclidean distance
`sqrt((lat1-lat2)^2+(lon1-lon2)^2)` to the query point is at most every
other member's, with ties resolved to the earliest list entry. -/
theorem C1_find_nearest_correct (posts : List Post) (lat lon : ℚ) :
    find_nearest_post [] lat lon = none ∧
    (posts ≠ [] → ∃ r, find_nearest_post posts lat lon = some r ∧
      r ∈ posts ∧
      (∀ p ∈ posts,
        Real.sqrt ((distanceSq lat lon r.lat r.lng : ℚ) : ℝ) ≤
          Real.sqrt ((distanceSq lat lon p.lat p.lng : ℚ) : ℝ)) ∧
      (∀ p ∈ posts,
        Real.sqrt ((distanceSq lat lon p.lat p.lng : ℚ) : ℝ) ≤
          Real.sqrt ((distanceSq lat lon r.lat r.lng : ℚ) : ℝ) →
        posts.indexOf r ≤ posts.indexOf p)) := by
  constructor
  · rfl
  · intro hne
    have hemp : posts.isEmpty = false := by
      cases posts with
      | nil => exact absurd rfl hne
      | cons a l => rfl
    have hfn : find_nearest_post posts lat lon =
        posts.argmin (fun p => distanceSq lat lon p.lat p.lng) := by
      simp [find_nearest_post, hemp]
    cases harg : posts.argmin (fun p => distanceSq lat lon p.lat p.lng) with
    | none => exact absurd (List.argmin_eq_none.mp harg) hne
    | some r =>
        have hrmem : r ∈ posts.argmin
            (fun p => distanceSq lat lon p.lat p.lng) := by
          rw [harg]; exact rfl
        refine ⟨r, by rw [hfn, harg], List.argmin_mem hrmem, ?_, ?_⟩
        · intro p hp
          have hle : distanceSq lat lon r.lat r.lng ≤
              distanceSq lat lon p.lat p.lng :=
            List.le_of_mem_argmin hp hrmem
          exact Real.sqrt_le_sqrt (by exact_mod_cast hle)
        · intro p hp hsq
          have h0 : (0 : ℝ) ≤ ((distanceSq lat lon r.lat r.lng : ℚ) : ℝ) := by
            exact_mod_cast distanceSq_nonneg lat lon r.lat r.lng
          have hle : ((distanceSq lat lon p.lat p.lng : ℚ) : ℝ) ≤
              ((distanceSq lat lon r.lat r.lng : ℚ) : ℝ) :=
            (Real.sqrt_le_sqrt_iff h0).mp hsq
          have hq : distanceSq lat lon p.lat p.lng ≤
              distanceSq lat lon r.lat r.lng := by exact_mod_cast hle
          exact List.index_of_argmin hrmem hp hq

/-- Witness for C1: the nearest of the two sample posts from the origin. -/
theorem C1_find_nearest_correct_witness :
    ∃ r, find_nearest_post samplePosts 0 0 = some r ∧ r ∈ samplePosts ∧
      (∀ p ∈ samplePosts,
        Real.sqrt ((distanceSq 0 0 r.lat r.lng : ℚ) : ℝ) ≤
          Real.sqrt ((distanceSq 0 0 p.lat p.lng : ℚ) : ℝ)) ∧
      (∀ p ∈ samplePosts,
        Real.sqrt ((distanceSq 0 0 p.lat p.lng : ℚ) : ℝ) ≤
          Real.sqrt ((distanceSq 0 0 r.lat r.lng : ℚ) : ℝ) →
        samplePosts.indexOf r ≤ samplePosts.indexOf p) :=
  (C1_find_nearest_correct samplePosts 0 0).2 (by decide)

end AirMonitor
